import Mathlib

set_option linter.unusedVariables false

/-!
Verification development for the Windsurf gRPC chat client
(`src/plugin/grpc-client.ts` together with the credential module `auth.ts`).

The TypeScript source is shallowly embedded below: byte buffers become
`List Nat` (every value produced here is `< 256`, so `Buffer.from`'s
truncation modulo 256 is the identity on them), strings become Lean
`String`s, and the asynchronous transport of one call becomes an explicit
ordered list of `TransportEvent`s that is folded over the event-handler
state, mirroring the single-threaded event-driven execution of the source.
Nondeterministic inputs of the source (`Date.now()`, `crypto.randomUUID()`)
become explicit parameters (`requestId`, `sessionId`).

Definitions that decode bytes (`decodeVarint`, `parseFields`) are
specification-side readers used to state properties of the encoder; they
implement the standard protobuf wire format described in the spec
(base-128 little-endian varints; tag = fieldNumber * 8 + wireType;
length-delimited payloads preceded by their varint length).
-/

-- ===========================================================================
-- Data model (grpc-client.ts / auth.ts types)
-- ===========================================================================

/-- Role union type of `ChatMessage.role` in grpc-client.ts. -/
inductive Role where
  | user
  | assistant
  | system
  | tool
deriving DecidableEq, Repr

/-- The `ChatMessage` interface of grpc-client.ts. -/
structure ChatMessage where
  role : Role
  content : String
deriving DecidableEq, Repr

/-- Error codes of `WindsurfErrorCode` in auth.ts, plus `MODEL_NOT_FOUND`.
Modelled from the spec: the spec's error taxonomy names `ModelNotFound` for an
unresolved model name; the module that raises it (models.ts) is not under
src/, so its code is added here next to the codes that are in auth.ts. -/
inductive WindsurfErrorCode where
  | NOT_RUNNING
  | CSRF_MISSING
  | API_KEY_MISSING
  | CONNECTION_FAILED
  | AUTH_FAILED
  | STREAM_ERROR
  | MODEL_NOT_FOUND
deriving DecidableEq, Repr

/-- The `WindsurfError` class of auth.ts (message + code; the optional
`details` cause is not observable in any claim and is omitted). -/
structure WindsurfError where
  message : String
  code : WindsurfErrorCode
deriving DecidableEq, Repr

-- ===========================================================================
-- Wire encoder (grpc-client.ts lines 38-69)
-- ===========================================================================

/-- Loop body of `encodeVarint`: while v > 127 emit (v AND 0x7f) OR 0x80 and
shift v right by 7; finally emit v.  The first argument is fuel standing in
for the source's unbounded while loop; `encodeVarint` supplies `v` itself,
which always suffices because the value shrinks by a factor of 128 while the
fuel shrinks by 1. -/
def encodeVarintAux : Nat → Nat → List Nat
  | 0, v => [v % 128]
  | fuel + 1, v => if v > 127 then (v % 128 + 128) :: encodeVarintAux fuel (v / 128) else [v]

/-- The `encodeVarint` function of grpc-client.ts (on non-negative integers;
the source widens to BigInt, so there is no overflow to model). -/
def encodeVarint (v : Nat) : List Nat :=
  encodeVarintAux v v

/-- UTF-8 bytes of one code point, as produced by `Buffer.from(str, 'utf8')`.
Addition is used in place of bit-OR: the summands occupy disjoint bit
ranges, so the two agree. -/
def utf8Bytes (c : Char) : List Nat :=
  let n := c.toNat
  if n < 128 then [n]
  else if n < 2048 then [192 + n / 64, 128 + n % 64]
  else if n < 65536 then [224 + n / 4096, 128 + n / 64 % 64, 128 + n % 64]
  else [240 + n / 262144, 128 + n / 4096 % 64, 128 + n / 64 % 64, 128 + n % 64]

/-- Byte sequence of `Buffer.from(str, 'utf8')`. -/
def strBytes (s : String) : List Nat :=
  (s.data.map utf8Bytes).flatten

/-- The `encodeString` function of grpc-client.ts:
tag byte (fieldNum shifted left by 3, OR 2) + varint length + string bytes. -/
def encodeString (fieldNum : Nat) (str : String) : List Nat :=
  ((fieldNum <<< 3) ||| 2) :: (encodeVarint (strBytes str).length ++ strBytes str)

/-- The `encodeMessage` function of grpc-client.ts (nested message field,
wire type 2). -/
def encodeMessage (fieldNum : Nat) (data : List Nat) : List Nat :=
  ((fieldNum <<< 3) ||| 2) :: (encodeVarint data.length ++ data)

/-- The `encodeVarintField` function of grpc-client.ts (wire type 0). -/
def encodeVarintField (fieldNum : Nat) (value : Nat) : List Nat :=
  ((fieldNum <<< 3) ||| 0) :: encodeVarint value

-- ===========================================================================
-- Specification-side wire reader (standard varint / field-scan semantics)
-- ===========================================================================

/-- Standard base-128 varint reader: little-endian 7-bit groups, a
continuation bit on all but the last byte (spec section 4.1 and glossary).
This is the specification-side decoder used to state claims about
`encodeVarint`; the repository itself never decodes varints. -/
def decodeVarint : List Nat → Option (Nat × List Nat)
  | [] => none
  | b :: rest =>
    if b < 128 then some (b, rest)
    else (decodeVarint rest).map (fun p => (b % 128 + 128 * p.1, p.2))


-- ===========================================================================
-- Request building (grpc-client.ts lines 78-189)
-- ===========================================================================

/-- Numeric values of the `ChatMessageSource` enum.
Modelled from the spec: the enum is imported from types.ts, which is not
under src/; the spec only says the chat-entry role is an enum, so concrete
small values are chosen here.  No claim below depends on these values. -/
def ChatMessageSource.USER : Nat := 1

/-- Value for the assistant role; see `ChatMessageSource.USER`. -/
def ChatMessageSource.ASSISTANT : Nat := 2

/-- Value for the system role; see `ChatMessageSource.USER`. -/
def ChatMessageSource.SYSTEM : Nat := 3

/-- Value for the tool role; see `ChatMessageSource.USER`. -/
def ChatMessageSource.TOOL : Nat := 4

/-- The `roleToSource` function of grpc-client.ts.  The source's default
branch (unknown role string maps to USER) is unreachable here because `Role`
models the closed union type of `ChatMessage.role`. -/
def roleToSource : Role → Nat
  | Role.user => ChatMessageSource.USER
  | Role.assistant => ChatMessageSource.ASSISTANT
  | Role.system => ChatMessageSource.SYSTEM
  | Role.tool => ChatMessageSource.TOOL

/-- The `encodeMetadata` function of grpc-client.ts.  The source draws
`requestId` from `Date.now()` and `sessionId` from `crypto.randomUUID()`;
both are explicit parameters here. -/
def encodeMetadata (apiKey version : String) (requestId : Nat) (sessionId : String) : List Nat :=
  encodeString 1 "windsurf-next" ++
  encodeString 2 version ++
  encodeString 3 apiKey ++
  encodeString 4 "en" ++
  encodeString 7 version ++
  encodeVarintField 9 requestId ++
  encodeString 10 sessionId ++
  encodeString 12 "windsurf"

/-- The `encodeFormattedChatMessage` function of grpc-client.ts: role
(varint field 1), header (field 2, only if non-empty — JS truthiness of a
string), content (field 3), footer (field 4, only if non-empty). -/
def encodeFormattedChatMessage (role : Nat) (content header footer : String) : List Nat :=
  encodeVarintField 1 role ++
  (if header ≠ "" then encodeString 2 header else []) ++
  encodeString 3 content ++
  (if footer ≠ "" then encodeString 4 footer else [])

/-- One iteration of the message loop in `buildChatRequest` (lines 161-170):
the accumulator carries the emitted chat-entry bytes and the current
`systemPrompt` string.  A system message overwrites `systemPrompt` and emits
nothing; every other message appends one field-2 entry. -/
def chatLoopStep (acc : List Nat × String) (m : ChatMessage) : List Nat × String :=
  if m.role = Role.system then (acc.1, m.content)
  else (acc.1 ++ encodeMessage 2 (encodeFormattedChatMessage (roleToSource m.role) m.content "" ""), acc.2)

/-- Payload part of `buildChatRequest` (lines 150-180): metadata (field 1),
chat entries (repeated field 2), the system prompt override (field 3, only
if the accumulated `systemPrompt` is non-empty — JS truthiness), and the
model enum (field 4). -/
def chatRequestPayload (apiKey version : String) (modelEnum : Nat) (messages : List ChatMessage)
    (requestId : Nat) (sessionId : String) : List Nat :=
  let metadata := encodeMetadata apiKey version requestId sessionId
  let loop := messages.foldl chatLoopStep ([], "")
  encodeMessage 1 metadata ++
  loop.1 ++
  (if loop.2 ≠ "" then encodeString 3 loop.2 else []) ++
  encodeVarintField 4 modelEnum

/-- Big-endian bytes written by `frame.writeUInt32BE(n, 1)` for n below 2^32. -/
def uint32be (n : Nat) : List Nat :=
  [n / 16777216 % 256, n / 65536 % 256, n / 256 % 256, n % 256]

/-- Framing part of `buildChatRequest` (lines 182-188): one 0x00 compression
byte, four big-endian length bytes, then the payload. -/
def encodeFrame (payload : List Nat) : List Nat :=
  0 :: (uint32be payload.length ++ payload)

/-- The `buildChatRequest` function of grpc-client.ts: the encoded payload
wrapped in the 5-byte gRPC frame. -/
def buildChatRequest (apiKey version : String) (modelEnum : Nat) (messages : List ChatMessage)
    (requestId : Nat) (sessionId : String) : List Nat :=
  encodeFrame (chatRequestPayload apiKey version modelEnum messages requestId sessionId)

/-- Value of a big-endian byte sequence, used to state that the length field
of a frame denotes the payload length. -/
def beBytesToNat (bytes : List Nat) : Nat :=
  bytes.foldl (fun acc b => acc * 256 + b) 0

-- ===========================================================================
-- Model resolution (models.ts, not under src/)
-- ===========================================================================

/-- Modelled from the spec: the model-name lookup table of models.ts is not
under src/; the spec describes it as a fixed name-to-integer-code table
consulted once per call.  The entries are sample codes; every claim below is
insensitive to the exact rows. -/
def modelTable : List (String × Nat) :=
  [("gpt-4o", 109), ("gpt-4.1", 259), ("claude-3.5-sonnet", 166)]

/-- Modelled from the spec: `modelNameToEnum` of models.ts resolves a model
name through the fixed table and fails with `ModelNotFound` on an unresolved
name, before any encoding or network I/O is attempted. -/
def modelNameToEnum (name : String) : Except WindsurfError Nat :=
  match modelTable.find? (fun p => p.1 == name) with
  | some p => Except.ok p.2
  | none => Except.error ⟨"Unknown model: " ++ name, WindsurfErrorCode.MODEL_NOT_FOUND⟩

-- ===========================================================================
-- Specification-side top-level field scanner
-- ===========================================================================

/-- One field of a protobuf message as read back from the wire: field
number, wire type, and payload.  For a length-delimited field (wire 2) the
payload holds its bytes; for a varint field (wire 0) it holds the single
decoded value. -/
structure WireField where
  num : Nat
  wire : Nat
  payload : List Nat
deriving DecidableEq, Repr

/-- Field scan over a byte sequence, per the standard wire format the spec
describes: read a varint tag, split it into field number (tag divided by 8)
and wire type (tag modulo 8), then read a varint value (wire 0) or a varint
length followed by that many payload bytes (wire 2).  Only the wire types
this encoder emits are accepted.  The first argument is fuel bounding the
number of fields; the byte length suffices since every field consumes at
least one byte. -/
def parseFieldsAux : Nat → List Nat → Option (List WireField)
  | _, [] => some []
  | 0, _ :: _ => none
  | fuel + 1, b :: bs =>
    match decodeVarint (b :: bs) with
    | none => none
    | some (tag, rest) =>
      if tag % 8 = 0 then
        match decodeVarint rest with
        | none => none
        | some (v, rest2) =>
          (parseFieldsAux fuel rest2).map (fun fs => ⟨tag / 8, 0, [v]⟩ :: fs)
      else if tag % 8 = 2 then
        match decodeVarint rest with
        | none => none
        | some (len, rest2) =>
          if len ≤ rest2.length then
            (parseFieldsAux fuel (rest2.drop len)).map (fun fs => ⟨tag / 8, 2, rest2.take len⟩ :: fs)
          else none
      else none

/-- Field scan of a whole byte sequence. -/
def parseFields (bytes : List Nat) : Option (List WireField) :=
  parseFieldsAux bytes.length bytes


-- ===========================================================================
-- Chunk decoder (grpc-client.ts lines 201-230)
-- ===========================================================================

/-- Characters kept by the replacement regex of line 205: the printable
ASCII range 0x20-0x7E plus newline; everything else becomes a space. -/
def isPrintableOrNl (c : Char) : Bool :=
  (32 ≤ c.toNat && c.toNat ≤ 126) || c = '\n'

/-- ASCII whitespace in the sense of the JS regex class backslash-s and of
`String.prototype.trim`.  Non-ASCII whitespace never reaches the decoder's
string operations because the replacement of line 205 has already mapped
every non-printable, non-newline character to a plain space. -/
def isJsWs (c : Char) : Bool :=
  c = ' ' || c = '\t' || c = '\n' || c = '\r' || c = '\x0b' || c = '\x0c'

/-- JS `String.prototype.trim`: drop whitespace from both ends. -/
def trimChars (l : List Char) : List Char :=
  ((l.dropWhile isJsWs).reverse.dropWhile isJsWs).reverse

/-- Greedy match of one-or-more non-'0' characters (the capture group of
the regex on line 209): the longest non-empty prefix of characters other
than '0', or failure. -/
def nonZeroRun (l : List Char) : Option (List Char) :=
  let r := l.takeWhile (fun c => c ≠ '0')
  if r.isEmpty then none else some r

/-- Backtracking over the greedy whitespace star of the regex on line 209:
try consuming k whitespace characters, largest k first. -/
def tryWs : Nat → List Char → Option (List Char)
  | 0, l => nonZeroRun l
  | k + 1, l =>
    match nonZeroRun (l.drop (k + 1)) with
    | some r => some r
    | none => tryWs k l

/-- Attempt the tail of the regex on line 209 right after an asterisk:
whitespace-star (greedy, with backtracking) then the non-'0' group. -/
def matchAfterStar (l : List Char) : Option (List Char) :=
  tryWs (l.takeWhile isJsWs).length l

/-- Leftmost match of the full regex of line 209 (an asterisk, optional
whitespace, then one or more non-'0' characters, captured): scan positions
left to right, attempting the tail at every asterisk. -/
def matchStarPattern : List Char → Option (List Char)
  | [] => none
  | c :: rest =>
    if c = '*' then
      match matchAfterStar rest with
      | some g => some g
      | none => matchStarPattern rest
    else matchStarPattern rest

/-- Split on runs of two or more whitespace characters (the regex split of
line 215).  Fuel-based recursion standing in for the scan over the string;
the character count is always enough fuel since every step consumes at
least one character. -/
def splitWs2Aux : Nat → List Char → List Char → List (List Char)
  | 0, l, acc => [acc.reverse ++ l]
  | _ + 1, [], acc => [acc.reverse]
  | fuel + 1, c :: rest, acc =>
    if isJsWs c then
      let run := (c :: rest).takeWhile isJsWs
      if 2 ≤ run.length then
        acc.reverse :: splitWs2Aux fuel ((c :: rest).drop run.length) []
      else
        splitWs2Aux fuel rest (c :: acc)
    else
      splitWs2Aux fuel rest (c :: acc)

/-- JS `readable.split(regex of two-or-more whitespace)`. -/
def splitWs2 (l : List Char) : List (List Char) :=
  splitWs2Aux l.length l []

/-- Character class of the token-shaped regex on line 220 (case-insensitive
hex digits and hyphens). -/
def isHexUuidChar (c : Char) : Bool :=
  ('a' ≤ c && c ≤ 'f') || ('A' ≤ c && c ≤ 'F') || c.isDigit || c = '-'

/-- The fallback loop of lines 216-227: the first split part that is
non-empty, hyphen-free and not entirely hex/UUID-shaped is stripped of its
leading whitespace/digits/asterisks and trimmed; it is returned if anything
remains, otherwise the scan continues. -/
def findMeaningful : List (List Char) → List Char
  | [] => []
  | p :: rest =>
    if p.length > 0 && !(p.contains '-') && !(p.all isHexUuidChar) then
      let cleaned := trimChars (p.dropWhile (fun c => isJsWs c || c.isDigit || c = '*'))
      if cleaned.length > 0 then cleaned else findMeaningful rest
    else findMeaningful rest

/-- Character-level body of `extractTextFromChunk`: map non-printables to
spaces and trim, return the trimmed text after an asterisk marker if the
marker regex matches, otherwise fall back to the split-and-scan heuristic,
otherwise the empty string. -/
def extractCore (chars : List Char) : List Char :=
  let readable := trimChars (chars.map (fun c => if isPrintableOrNl c then c else ' '))
  match matchStarPattern readable with
  | some g => trimChars g
  | none => findMeaningful (splitWs2 readable)

/-- The `extractTextFromChunk` function of grpc-client.ts.  The transport
chunk is modelled at the level of its decoded text (the source first runs
`chunk.toString('utf8')`). -/
def extractTextFromChunk (chunk : String) : String :=
  String.mk (extractCore chunk.data)

-- ===========================================================================
-- Percent decoding (`decodeURIComponent` on trailer messages)
-- ===========================================================================

/-- Hex digit value, both cases. -/
def hexVal (c : Char) : Option Nat :=
  if c.isDigit then some (c.toNat - 48)
  else if 'a' ≤ c && c ≤ 'f' then some (c.toNat - 87)
  else if 'A' ≤ c && c ≤ 'F' then some (c.toNat - 55)
  else none

/-- Percent decoding of `decodeURIComponent` restricted to single-byte
escapes: a '%' followed by two hex digits becomes the character of that
code.  Every trailer message in the claims is plain ASCII without escapes,
for which this agrees with `decodeURIComponent`; multi-byte UTF-8 escape
sequences and the exception on malformed input are not modelled. -/
def percentDecode : List Char → List Char
  | [] => []
  | '%' :: h1 :: h2 :: rest =>
    match hexVal h1, hexVal h2 with
    | some a, some b => Char.ofNat (16 * a + b) :: percentDecode rest
    | _, _ => '%' :: percentDecode (h1 :: h2 :: rest)
  | c :: rest => c :: percentDecode rest

/-- String-level percent decoding used on `grpc-message` trailer values. -/
def decodeURIComponentModel (s : String) : String :=
  String.mk (percentDecode s.data)

-- ===========================================================================
-- Stream transport events
-- ===========================================================================

/-- One event delivered to the handlers a call registers: the ordered event
list of a call is the input of the stream models.  `connError` is an
'error' event on the http2 client, `data`/`trailers`/`streamEnd`/`reqError`
are events on the request stream, and `timerFire` is the 2-minute
`setTimeout` callback of `streamChat` firing.  A `data` chunk is carried as
its decoded text (the source first runs `chunk.toString('utf8')`). -/
inductive TransportEvent where
  | connError (msg : String)
  | data (chunk : String)
  | trailers (status : String) (msg : Option String)
  | streamEnd
  | reqError (msg : String)
  | timerFire
deriving DecidableEq, Repr

/-- Texts a chunk sequence contributes: each chunk is decoded and kept only
if non-empty (the `if (text)` truthiness guard of both handlers). -/
def extractedTexts (chunks : List String) : List String :=
  chunks.filterMap (fun c =>
    let t := extractTextFromChunk c
    if t = "" then none else some t)

-- ===========================================================================
-- Push mode: streamChat (grpc-client.ts lines 243-323)
-- ===========================================================================

deriving instance DecidableEq for Except

/-- Observable state of one `streamChat` promise executor: the `chunks`
array, the promise settlement (a promise settles only once; later resolve
and reject calls are ignored), the recorded callback invocations, and how
often `client.close()` ran. -/
structure PushState where
  chunks : List String
  settled : Option (Except WindsurfError String)
  onChunkCalls : List String
  onCompleteCalls : List String
  onErrorCalls : List WindsurfError
  closeCalls : Nat
deriving DecidableEq, Repr

/-- Initial push state. -/
def pushInit : PushState :=
  ⟨[], none, [], [], [], 0⟩

/-- First settlement wins: `resolve`/`reject` on an already settled promise
is a no-op. -/
def settle (s : PushState) (r : Except WindsurfError String) : PushState :=
  match s.settled with
  | some _ => s
  | none => { s with settled := some r }

/-- One event step of `streamChat`, mirroring its handlers line by line:
client 'error' reports and rejects CONNECTION_FAILED; 'data' decodes the
chunk and, if non-empty, records it and calls onChunk; 'trailers' with a
status other than "0" reports and rejects STREAM_ERROR built from the
status and the percent-decoded message ("Unknown error" when absent);
'end' closes the client, calls onComplete with the joined text and
resolves; request 'error' closes and rejects STREAM_ERROR; the timeout
callback closes, calls onComplete with the joined text and resolves. -/
def pushStep (s : PushState) (e : TransportEvent) : PushState :=
  match e with
  | TransportEvent.connError m =>
    let err : WindsurfError := ⟨"Connection failed: " ++ m, WindsurfErrorCode.CONNECTION_FAILED⟩
    settle { s with onErrorCalls := s.onErrorCalls ++ [err] } (Except.error err)
  | TransportEvent.data c =>
    let t := extractTextFromChunk c
    if t = "" then s
    else { s with chunks := s.chunks ++ [t], onChunkCalls := s.onChunkCalls ++ [t] }
  | TransportEvent.trailers status msg =>
    if status = "0" then s
    else
      let decoded :=
        match msg with
        | some m => decodeURIComponentModel m
        | none => "Unknown error"
      let err : WindsurfError := ⟨"gRPC error " ++ status ++ ": " ++ decoded, WindsurfErrorCode.STREAM_ERROR⟩
      settle { s with onErrorCalls := s.onErrorCalls ++ [err] } (Except.error err)
  | TransportEvent.streamEnd =>
    let full := String.join s.chunks
    settle { s with closeCalls := s.closeCalls + 1, onCompleteCalls := s.onCompleteCalls ++ [full] }
      (Except.ok full)
  | TransportEvent.reqError m =>
    let err : WindsurfError := ⟨"Request failed: " ++ m, WindsurfErrorCode.STREAM_ERROR⟩
    settle { s with closeCalls := s.closeCalls + 1, onErrorCalls := s.onErrorCalls ++ [err] }
      (Except.error err)
  | TransportEvent.timerFire =>
    let full := String.join s.chunks
    settle { s with closeCalls := s.closeCalls + 1, onCompleteCalls := s.onCompleteCalls ++ [full] }
      (Except.ok full)

/-- Result of one `streamChat` call: the final handler state, how many
connections were opened, and whether `buildChatRequest` ran. -/
structure ChatCall where
  state : PushState
  connections : Nat
  encodedRequest : Bool
deriving DecidableEq, Repr

/-- The `streamChat` function of grpc-client.ts over an explicit transport
event list.  Model resolution runs first (line 248): an unresolved name
fails before `buildChatRequest` (line 249) and before `http2.connect`
(line 252), so no request is encoded and no connection is attempted.
Otherwise one connection is opened and the event handlers run the event
list.  The credential fields (csrf token, port, api key, version) only
shape the connection and request body, which the event list abstracts. -/
def streamChat (model : String) (messages : List ChatMessage)
    (events : List TransportEvent) : ChatCall :=
  match modelNameToEnum model with
  | Except.error e => ⟨settle pushInit (Except.error e), 0, false⟩
  | Except.ok _ => ⟨events.foldl pushStep pushInit, 1, true⟩

-- ===========================================================================
-- Pull mode: streamChatGenerator (grpc-client.ts lines 334-421)
-- ===========================================================================

/-- Handler state of one `streamChatGenerator` call: the chunk queue, the
`done` flag, the `error` slot and the `client.close()` count. -/
structure GenState where
  chunkQueue : List String
  done : Bool
  error : Option WindsurfError
  closeCalls : Nat
deriving DecidableEq, Repr

/-- One event step of `streamChatGenerator`, mirroring its handlers:
client 'error' stores CONNECTION_FAILED and sets done; 'data' enqueues the
decoded text if non-empty; 'trailers' with a status other than "0" stores
STREAM_ERROR (without setting done — only 'end' ends the loop); 'end' sets
done and closes; request 'error' stores STREAM_ERROR, sets done and closes.
No handler reacts to the 2-minute timer: `streamChatGenerator` registers no
timeout. -/
def genStep (s : GenState) (e : TransportEvent) : GenState :=
  match e with
  | TransportEvent.connError m =>
    { s with error := some ⟨"Connection failed: " ++ m, WindsurfErrorCode.CONNECTION_FAILED⟩,
             done := true }
  | TransportEvent.data c =>
    let t := extractTextFromChunk c
    if t = "" then s else { s with chunkQueue := s.chunkQueue ++ [t] }
  | TransportEvent.trailers status msg =>
    if status = "0" then s
    else
      { s with error := some ⟨"gRPC error " ++ status ++ ": " ++
          (match msg with
           | some m => decodeURIComponentModel m
           | none => "Unknown error"), WindsurfErrorCode.STREAM_ERROR⟩ }
  | TransportEvent.streamEnd =>
    { s with done := true, closeCalls := s.closeCalls + 1 }
  | TransportEvent.reqError m =>
    { s with error := some ⟨"Request failed: " ++ m, WindsurfErrorCode.STREAM_ERROR⟩,
             done := true, closeCalls := s.closeCalls + 1 }
  | TransportEvent.timerFire => s

/-- Outcome of consuming the generator to the end: either the yield loop
exits (queue drained and done), yielding the listed fragments in order and
then raising the stored error if any, or the loop is still suspended
waiting for a next event (`pending`), with the fragments yielded so far.
Queue order is FIFO (push at 'data', shift in the loop), so the yielded
sequence equals the enqueue sequence regardless of how consumption
interleaves with arrival; the model therefore runs all events first and
reads the queue as the yield list. -/
inductive GenOutcome where
  | finished (yielded : List String) (err : Option WindsurfError)
  | pending (yielded : List String)
deriving DecidableEq, Repr

/-- The `streamChatGenerator` function of grpc-client.ts over an explicit
transport event list.  Model resolution (line 339) fails the call before
any connection, as in `streamChat`. -/
def streamChatGenerator (model : String) (messages : List ChatMessage)
    (events : List TransportEvent) : Except WindsurfError GenOutcome :=
  match modelNameToEnum model with
  | Except.error e => Except.error e
  | Except.ok _ =>
    let s := events.foldl genStep ⟨[], false, none, 0⟩
    Except.ok (if s.done then GenOutcome.finished s.chunkQueue s.error else GenOutcome.pending s.chunkQueue)

/-- A fixed message list used by the concrete call traces below. -/
def demoMsgs : List ChatMessage :=
  [⟨Role.user, "hi"⟩]

-- ===========================================================================
-- Lemmas about the wire encoder and the field scanner
-- ===========================================================================

theorem decodeVarint_length {bytes : List Nat} {v : Nat} {rest : List Nat}
    (h : decodeVarint bytes = some (v, rest)) : rest.length < bytes.length := by
  induction bytes generalizing v rest with
  | nil => simp [decodeVarint] at h
  | cons b bs ih =>
    simp only [decodeVarint] at h
    by_cases hb : b < 128
    · rw [if_pos hb] at h
      have h2 : bs = rest := congrArg Prod.snd (Option.some.inj h)
      subst h2
      simp only [List.length_cons]
      omega
    · rw [if_neg hb] at h
      cases hd : decodeVarint bs with
      | none => rw [hd] at h; simp at h
      | some p =>
        rw [hd] at h
        simp only [Option.map_some'] at h
        have h2 : p.2 = rest := congrArg Prod.snd (Option.some.inj h)
        have h3 : p.2.length < bs.length := ih (by rw [hd])
        rw [h2] at h3
        simp only [List.length_cons]
        omega

theorem decodeVarint_encodeVarintAux (fuel v : Nat) (rest : List Nat) (hf : v ≤ fuel) :
    decodeVarint (encodeVarintAux fuel v ++ rest) = some (v, rest) := by
  induction fuel generalizing v with
  | zero =>
    have hv0 : v = 0 := Nat.le_zero.mp hf
    simp [hv0, encodeVarintAux, decodeVarint]
  | succ fuel ih =>
    by_cases hv : v > 127
    · have hdiv : v / 128 < v := Nat.div_lt_self (by omega) (by omega)
      have hrec : v / 128 ≤ fuel := by omega
      simp only [encodeVarintAux, if_pos hv, List.cons_append]
      have hge : ¬ (v % 128 + 128 < 128) := by omega
      simp only [decodeVarint, if_neg hge, ih (v / 128) hrec, Option.map_some',
        Option.some.injEq, Prod.mk.injEq]
      exact ⟨by omega, trivial⟩
    · simp only [encodeVarintAux, if_neg hv, List.cons_append]
      have hlt : v < 128 := by omega
      simp [decodeVarint, hlt]

/-- Round trip of the source encoder against the standard varint reader. -/
theorem decodeVarint_encodeVarint (v : Nat) (rest : List Nat) :
    decodeVarint (encodeVarint v ++ rest) = some (v, rest) :=
  decodeVarint_encodeVarintAux v v rest (Nat.le_refl v)

theorem parseFieldsAux_fuel (fuel₁ : Nat) :
    ∀ (fuel₂ : Nat) (bytes : List Nat), bytes.length ≤ fuel₁ → bytes.length ≤ fuel₂ →
      parseFieldsAux fuel₁ bytes = parseFieldsAux fuel₂ bytes := by
  induction fuel₁ with
  | zero =>
    intro fuel₂ bytes h₁ _
    have hb : bytes = [] := List.length_eq_zero.mp (Nat.le_zero.mp h₁)
    subst hb
    cases fuel₂ <;> rfl
  | succ f₁ ih =>
    intro fuel₂ bytes h₁ h₂
    cases bytes with
    | nil => cases fuel₂ <;> rfl
    | cons b bs =>
      have hlen : bs.length + 1 ≤ fuel₂ := by simpa using h₂
      obtain ⟨f₂, rfl⟩ : ∃ k, fuel₂ = k + 1 := ⟨fuel₂ - 1, by omega⟩
      simp only [parseFieldsAux]
      cases hd : decodeVarint (b :: bs) with
      | none => rfl
      | some p =>
        obtain ⟨tag, rest⟩ := p
        have hr : rest.length < bs.length + 1 := by
          simpa using decodeVarint_length hd
        by_cases h0 : tag % 8 = 0
        · simp only [if_pos h0]
          cases hd2 : decodeVarint rest with
          | none => rfl
          | some q =>
            obtain ⟨v, rest2⟩ := q
            have hr2 : rest2.length < rest.length := decodeVarint_length hd2
            dsimp only
            rw [ih f₂ rest2 (by simp at h₁; omega) (by omega)]
        · simp only [if_neg h0]
          by_cases h2' : tag % 8 = 2
          · simp only [if_pos h2']
            cases hd2 : decodeVarint rest with
            | none => rfl
            | some q =>
              obtain ⟨len, rest2⟩ := q
              have hr2 : rest2.length < rest.length := decodeVarint_length hd2
              dsimp only
              by_cases hle : len ≤ rest2.length
              · simp only [if_pos hle]
                have hdl : (rest2.drop len).length ≤ rest2.length := by
                  simp
                rw [ih f₂ (rest2.drop len) (by simp at h₁ ⊢; omega) (by simp; omega)]
              · simp only [if_neg hle]
          · simp only [if_neg h2']

theorem decodeVarint_cons_lt {b : Nat} (hb : b < 128) (rest : List Nat) :
    decodeVarint (b :: rest) = some (b, rest) := by
  simp [decodeVarint, hb]

theorem parseFields_cons_len (t f : Nat) (ht : t < 128) (hw : t % 8 = 2) (hf : t / 8 = f)
    (data rest : List Nat) :
    parseFields (t :: (encodeVarint data.length ++ (data ++ rest))) =
      (parseFields rest).map (fun fs => ⟨f, 2, data⟩ :: fs) := by
  simp only [parseFields, List.length_cons, parseFieldsAux,
    decodeVarint_cons_lt ht, decodeVarint_encodeVarint]
  have h0 : ¬ t % 8 = 0 := by omega
  simp only [if_neg h0, if_pos hw]
  have hle : data.length ≤ (data ++ rest).length := by simp
  simp only [if_pos hle, List.take_left, List.drop_left, hf]
  have hlen : rest.length ≤ (encodeVarint data.length ++ (data ++ rest)).length := by
    simp
    omega
  rw [parseFieldsAux_fuel _ rest.length rest (by simpa using hlen) (Nat.le_refl _)]

theorem parseFields_cons_varint (t f : Nat) (ht : t < 128) (hw : t % 8 = 0) (hf : t / 8 = f)
    (v : Nat) (rest : List Nat) :
    parseFields (t :: (encodeVarint v ++ rest)) =
      (parseFields rest).map (fun fs => ⟨f, 0, [v]⟩ :: fs) := by
  simp only [parseFields, List.length_cons, parseFieldsAux,
    decodeVarint_cons_lt ht, decodeVarint_encodeVarint]
  simp only [if_pos hw, hf]
  rw [parseFieldsAux_fuel _ rest.length rest (by simp) (Nat.le_refl _)]

theorem parseFields_nil : parseFields [] = some [] := rfl

-- ===========================================================================
-- Lemmas about the stream models
-- ===========================================================================

theorem extractedTexts_nil : extractedTexts [] = [] := rfl

theorem extractedTexts_cons (c : String) (cs : List String) :
    extractedTexts (c :: cs) =
      if extractTextFromChunk c = "" then extractedTexts cs
      else extractTextFromChunk c :: extractedTexts cs := by
  by_cases h : extractTextFromChunk c = "" <;>
    simp [extractedTexts, List.filterMap_cons, h]

theorem foldl_pushStep_data (pre : List String) (s : PushState) :
    List.foldl pushStep s (pre.map TransportEvent.data) =
      { s with chunks := s.chunks ++ extractedTexts pre,
               onChunkCalls := s.onChunkCalls ++ extractedTexts pre } := by
  induction pre generalizing s with
  | nil => simp [extractedTexts_nil]
  | cons c cs ih =>
    simp only [List.map_cons, List.foldl_cons]
    by_cases h : extractTextFromChunk c = ""
    · rw [show pushStep s (TransportEvent.data c) = s by simp [pushStep, h]]
      rw [ih, extractedTexts_cons]
      simp [h]
    · rw [show pushStep s (TransportEvent.data c) =
          { s with chunks := s.chunks ++ [extractTextFromChunk c],
                   onChunkCalls := s.onChunkCalls ++ [extractTextFromChunk c] } by
        simp [pushStep, h]]
      rw [ih, extractedTexts_cons]
      simp [h]

theorem foldl_genStep_data (pre : List String) (s : GenState) :
    List.foldl genStep s (pre.map TransportEvent.data) =
      { s with chunkQueue := s.chunkQueue ++ extractedTexts pre } := by
  induction pre generalizing s with
  | nil => simp [extractedTexts_nil]
  | cons c cs ih =>
    simp only [List.map_cons, List.foldl_cons]
    by_cases h : extractTextFromChunk c = ""
    · rw [show genStep s (TransportEvent.data c) = s by simp [genStep, h]]
      rw [ih, extractedTexts_cons]
      simp [h]
    · rw [show genStep s (TransportEvent.data c) =
          { s with chunkQueue := s.chunkQueue ++ [extractTextFromChunk c] } by
        simp [genStep, h]]
      rw [ih, extractedTexts_cons]
      simp [h]

theorem parseFields_encodeMessage (f : Nat) (hf : f < 16) (data rest : List Nat) :
    parseFields (encodeMessage f data ++ rest) =
      (parseFields rest).map (fun fs => ⟨f, 2, data⟩ :: fs) := by
  have ht : (f <<< 3) ||| 2 < 128 := by interval_cases f <;> decide
  have hw : ((f <<< 3) ||| 2) % 8 = 2 := by interval_cases f <;> decide
  have hf8 : ((f <<< 3) ||| 2) / 8 = f := by interval_cases f <;> decide
  have h := parseFields_cons_len ((f <<< 3) ||| 2) f ht hw hf8 data rest
  simpa [encodeMessage, List.append_assoc] using h

theorem parseFields_encodeString (f : Nat) (hf : f < 16) (str : String) (rest : List Nat) :
    parseFields (encodeString f str ++ rest) =
      (parseFields rest).map (fun fs => ⟨f, 2, strBytes str⟩ :: fs) := by
  have h := parseFields_encodeMessage f hf (strBytes str) rest
  simpa [encodeMessage, encodeString] using h

theorem parseFields_encodeVarintField (f : Nat) (hf : f < 16) (v : Nat) (rest : List Nat) :
    parseFields (encodeVarintField f v ++ rest) =
      (parseFields rest).map (fun fs => ⟨f, 0, [v]⟩ :: fs) := by
  have ht : (f <<< 3) ||| 0 < 128 := by interval_cases f <;> decide
  have hw : ((f <<< 3) ||| 0) % 8 = 0 := by interval_cases f <;> decide
  have hf8 : ((f <<< 3) ||| 0) / 8 = f := by interval_cases f <;> decide
  have h := parseFields_cons_varint ((f <<< 3) ||| 0) f ht hw hf8 v rest
  simpa [encodeVarintField, List.append_assoc] using h

theorem parseFields_encodeVarintField_nil (f : Nat) (hf : f < 16) (v : Nat) :
    parseFields (encodeVarintField f v) = some [⟨f, 0, [v]⟩] := by
  have h := parseFields_encodeVarintField f hf v []
  simpa [parseFields_nil] using h

-- ===========================================================================
-- Claims
-- ===========================================================================

/-- C5: for every n in {0, 1, 127, 128, 2^32-1, 2^53-1}, decoding the byte
sequence produced by `encodeVarint n` under the standard base-128 varint
interpretation (little-endian 7-bit groups, continuation bit on all but the
last byte) returns n. -/
theorem encodeVarint_decode_spec_values :
    decodeVarint (encodeVarint 0) = some (0, []) ∧
    decodeVarint (encodeVarint 1) = some (1, []) ∧
    decodeVarint (encodeVarint 127) = some (127, []) ∧
    decodeVarint (encodeVarint 128) = some (128, []) ∧
    decodeVarint (encodeVarint (2 ^ 32 - 1)) = some (2 ^ 32 - 1, []) ∧
    decodeVarint (encodeVarint (2 ^ 53 - 1)) = some (2 ^ 53 - 1, []) := by
  refine ⟨?_, ?_, ?_, ?_, ?_, ?_⟩ <;>
    simpa using decodeVarint_encodeVarint _ []

/-- C7: for every field number and payload (string bytes for `encodeString`,
nested message bytes for `encodeMessage`), the produced length-delimited
field is the tag byte followed by a varint that declares exactly the byte
length of the payload that follows it. -/
theorem length_delimited_declared_length (fieldNum : Nat) (str : String) (data : List Nat) :
    encodeString fieldNum str =
      ((fieldNum <<< 3) ||| 2) :: (encodeVarint (strBytes str).length ++ strBytes str) ∧
    decodeVarint ((encodeString fieldNum str).drop 1) =
      some ((strBytes str).length, strBytes str) ∧
    encodeMessage fieldNum data =
      ((fieldNum <<< 3) ||| 2) :: (encodeVarint data.length ++ data) ∧
    decodeVarint ((encodeMessage fieldNum data).drop 1) = some (data.length, data) := by
  refine ⟨rfl, ?_, rfl, ?_⟩ <;>
    simp [encodeString, encodeMessage, decodeVarint_encodeVarint]

/-- C6: the frame built by `buildChatRequest` is one 0x00 compression byte,
the 4-byte big-endian encoding of the payload length, then the payload, and
the length field denotes exactly the payload byte count. -/
theorem encodeFrame_layout (payload : List Nat) (h : payload.length < 4294967296)
    (apiKey version sessionId : String) (requestId modelEnum : Nat)
    (messages : List ChatMessage) :
    encodeFrame payload = 0 :: (uint32be payload.length ++ payload) ∧
    beBytesToNat (uint32be payload.length) = payload.length ∧
    buildChatRequest apiKey version modelEnum messages requestId sessionId =
      encodeFrame (chatRequestPayload apiKey version modelEnum messages requestId sessionId) := by
  refine ⟨rfl, ?_, rfl⟩
  simp only [beBytesToNat, uint32be, List.foldl_cons, List.foldl_nil]
  omega

/-- Witness for C6 at a concrete payload and concrete call inputs. -/
theorem encodeFrame_layout_witness :
    ([7, 8, 9] : List Nat).length < 4294967296 ∧
    (encodeFrame [7, 8, 9] = 0 :: (uint32be ([7, 8, 9] : List Nat).length ++ [7, 8, 9]) ∧
     beBytesToNat (uint32be ([7, 8, 9] : List Nat).length) = ([7, 8, 9] : List Nat).length ∧
     buildChatRequest "k" "1.0" 109 demoMsgs 0 "sess" =
       encodeFrame (chatRequestPayload "k" "1.0" 109 demoMsgs 0 "sess")) :=
  ⟨by decide, encodeFrame_layout [7, 8, 9] (by decide) "k" "1.0" "sess" 0 109 demoMsgs⟩

/-- C8: a call whose model name is absent from the lookup table fails with
MODEL_NOT_FOUND before any encoding or network I/O: the request is never
built and zero connections are attempted, whatever the messages and
whatever the transport would have delivered. -/
theorem unknown_model_fails_preflight (name : String)
    (h : modelTable.find? (fun p => p.1 == name) = none)
    (messages : List ChatMessage) (events : List TransportEvent) :
    (streamChat name messages events).state.settled =
      some (Except.error ⟨"Unknown model: " ++ name, WindsurfErrorCode.MODEL_NOT_FOUND⟩) ∧
    (streamChat name messages events).connections = 0 ∧
    (streamChat name messages events).encodedRequest = false := by
  simp [streamChat, modelNameToEnum, h, settle, pushInit]

/-- Witness for C8 at a concrete unknown model name. -/
theorem unknown_model_fails_preflight_witness :
    modelTable.find? (fun p => p.1 == "no-such-model") = none ∧
    ((streamChat "no-such-model" demoMsgs []).state.settled =
       some (Except.error ⟨"Unknown model: " ++ "no-such-model",
         WindsurfErrorCode.MODEL_NOT_FOUND⟩) ∧
     (streamChat "no-such-model" demoMsgs []).connections = 0 ∧
     (streamChat "no-such-model" demoMsgs []).encodedRequest = false) :=
  ⟨by decide, unknown_model_fails_preflight "no-such-model" (by decide) demoMsgs []⟩

theorem parseFields_chatEntries (ms : List ChatMessage) (rest : List Nat) :
    parseFields ((ms.map (fun m =>
        encodeMessage 2 (encodeFormattedChatMessage (roleToSource m.role) m.content "" ""))).flatten ++ rest) =
      (parseFields rest).map (fun fs =>
        ms.map (fun m =>
          (⟨2, 2, encodeFormattedChatMessage (roleToSource m.role) m.content "" ""⟩ : WireField)) ++ fs) := by
  induction ms with
  | nil => cases h : parseFields rest <;> simp [h]
  | cons m ms ih =>
    simp only [List.map_cons, List.flatten_cons, List.append_assoc]
    rw [parseFields_encodeMessage 2 (by decide), ih]
    cases h : parseFields rest <;> simp [h]

theorem chatLoop_all_system_empty (msgs : List ChatMessage) (bs : List Nat)
    (h : ∀ m ∈ msgs, m.role = Role.system → m.content = "") :
    List.foldl chatLoopStep (bs, "") msgs =
      (bs ++ ((msgs.filter (fun m => ¬ m.role = Role.system)).map
        (fun m => encodeMessage 2 (encodeFormattedChatMessage (roleToSource m.role) m.content "" ""))).flatten,
       "") := by
  induction msgs generalizing bs with
  | nil => simp
  | cons m ms ih =>
    simp only [List.foldl_cons]
    by_cases hm : m.role = Role.system
    · have hc : m.content = "" := h m (by simp) hm
      rw [show chatLoopStep (bs, "") m = (bs, "") by simp [chatLoopStep, hm, hc]]
      rw [ih bs (fun m' hm' hr => h m' (by simp [hm']) hr)]
      simp [List.filter_cons, hm]
    · rw [show chatLoopStep (bs, "") m =
          (bs ++ encodeMessage 2 (encodeFormattedChatMessage (roleToSource m.role) m.content "" ""), "") by
        simp [chatLoopStep, hm]]
      rw [ih _ (fun m' hm' hr => h m' (by simp [hm']) hr)]
      simp [List.filter_cons, hm, List.append_assoc]

theorem countP_num_map_entries (ms : List ChatMessage) (n : Nat) :
    ((ms.map (fun m =>
        (⟨2, 2, encodeFormattedChatMessage (roleToSource m.role) m.content "" ""⟩ : WireField))).countP
      (fun fld => fld.num == n)) = if (2 : Nat) = n then ms.length else 0 := by
  induction ms with
  | nil => simp
  | cons m ms ih =>
    simp only [List.map_cons, List.countP_cons, ih]
    by_cases h : (2 : Nat) = n <;> simp [h]

theorem chatRequestPayload_system_user (apiKey version sessionId : String)
    (requestId modelEnum : Nat) :
    chatRequestPayload apiKey version modelEnum
        [⟨Role.system, "S"⟩, ⟨Role.user, "U"⟩] requestId sessionId =
      encodeMessage 1 (encodeMetadata apiKey version requestId sessionId) ++
      (encodeMessage 2 (encodeFormattedChatMessage ChatMessageSource.USER "U" "" "") ++
       (encodeString 3 "S" ++ encodeVarintField 4 modelEnum)) := by
  simp [chatRequestPayload, chatLoopStep, roleToSource, List.append_assoc]

/-- C3: for the message list [system "S", user "U"], the request payload
contains exactly one system-prompt-override field (field 3), holding "S",
and exactly one chat-entry field (field 2), holding the formatted user
entry whose content field (field 3 of the entry) is "U" — never zero and
never two of either, whatever the credentials, request id, session id and
model code. -/
theorem buildChatRequest_system_user_fields (apiKey version sessionId : String)
    (requestId modelEnum : Nat) :
    ∃ fs, parseFields (chatRequestPayload apiKey version modelEnum
        [⟨Role.system, "S"⟩, ⟨Role.user, "U"⟩] requestId sessionId) = some fs ∧
      fs.countP (fun fld => fld.num == 3) = 1 ∧
      fs.filter (fun fld => fld.num == 3) = [⟨3, 2, strBytes "S"⟩] ∧
      fs.countP (fun fld => fld.num == 2) = 1 ∧
      fs.filter (fun fld => fld.num == 2) =
        [⟨2, 2, encodeFormattedChatMessage ChatMessageSource.USER "U" "" ""⟩] ∧
      parseFields (encodeFormattedChatMessage ChatMessageSource.USER "U" "" "") =
        some [⟨1, 0, [ChatMessageSource.USER]⟩, ⟨3, 2, strBytes "U"⟩] := by
  rw [chatRequestPayload_system_user,
      parseFields_encodeMessage 1 (by decide), parseFields_encodeMessage 2 (by decide),
      parseFields_encodeString 3 (by decide), parseFields_encodeVarintField_nil 4 (by decide)]
  simp only [Option.map_some']
  refine ⟨_, rfl, ?_, ?_, ?_, ?_, ?_⟩
  · simp [List.countP_cons]
  · simp [List.filter_cons]
  · simp [List.countP_cons]
  · simp [List.filter_cons]
  · decide

/-- C10: when every system message in the list has empty content (in
particular when the single system message does), the built payload has no
system-prompt-override field (field 3) at all and exactly one chat-entry
field per non-system message — the empty system message is silently
dropped. -/
theorem empty_system_prompt_dropped (apiKey version sessionId : String)
    (requestId modelEnum : Nat) (messages : List ChatMessage)
    (h : ∀ m ∈ messages, m.role = Role.system → m.content = "") :
    ∃ fs, parseFields (chatRequestPayload apiKey version modelEnum messages
        requestId sessionId) = some fs ∧
      fs.countP (fun fld => fld.num == 3) = 0 ∧
      fs.countP (fun fld => fld.num == 2) =
        (messages.filter (fun m => ¬ m.role = Role.system)).length := by
  have hloop := chatLoop_all_system_empty messages [] h
  have hpay : chatRequestPayload apiKey version modelEnum messages requestId sessionId =
      encodeMessage 1 (encodeMetadata apiKey version requestId sessionId) ++
      (((messages.filter (fun m => ¬ m.role = Role.system)).map
          (fun m => encodeMessage 2 (encodeFormattedChatMessage (roleToSource m.role) m.content "" ""))).flatten ++
       encodeVarintField 4 modelEnum) := by
    simp [chatRequestPayload, hloop, List.append_assoc]
  rw [hpay, parseFields_encodeMessage 1 (by decide), parseFields_chatEntries,
      parseFields_encodeVarintField_nil 4 (by decide)]
  simp only [Option.map_some']
  refine ⟨_, rfl, ?_, ?_⟩
  · simp [List.countP_cons, List.countP_append, countP_num_map_entries]
  · simp [List.countP_cons, List.countP_append, countP_num_map_entries]

/-- Witness for C10: the list [system with empty content, user "U"] at
concrete credentials. -/
theorem empty_system_prompt_dropped_witness :
    (∀ m ∈ ([⟨Role.system, ""⟩, ⟨Role.user, "U"⟩] : List ChatMessage),
      m.role = Role.system → m.content = "") ∧
    (∃ fs, parseFields (chatRequestPayload "k" "1.0" 109
        [⟨Role.system, ""⟩, ⟨Role.user, "U"⟩] 0 "sess") = some fs ∧
      fs.countP (fun fld => fld.num == 3) = 0 ∧
      fs.countP (fun fld => fld.num == 2) =
        (([⟨Role.system, ""⟩, ⟨Role.user, "U"⟩] : List ChatMessage).filter
          (fun m => ¬ m.role = Role.system)).length) :=
  ⟨by decide, empty_system_prompt_dropped "k" "1.0" "sess" 0 109
    [⟨Role.system, ""⟩, ⟨Role.user, "U"⟩] (by decide)⟩

/-- C1 counterexample: for the transport trace with chunks "Hel", "lo",
" world" followed by trailer status 0 and stream end, the call does not
resolve with "Hello world": the chunk decoder trims every chunk, so the
leading space of " world" is dropped. -/
theorem streamChat_pass_through_cex :
    (streamChat "gpt-4o" demoMsgs
        [TransportEvent.data "Hel", TransportEvent.data "lo", TransportEvent.data " world",
         TransportEvent.trailers "0" none, TransportEvent.streamEnd]).state.settled ≠
      some (Except.ok "Hello world") := by decide

/-- C1 amended: for that trace the call resolves with "Helloworld" (the
in-order concatenation of the decoded, trimmed chunk texts "Hel", "lo",
"world") and the onComplete callback is invoked exactly once, with that
string. -/
theorem streamChat_concat_trimmed :
    (streamChat "gpt-4o" demoMsgs
        [TransportEvent.data "Hel", TransportEvent.data "lo", TransportEvent.data " world",
         TransportEvent.trailers "0" none, TransportEvent.streamEnd]).state.settled =
      some (Except.ok "Helloworld") ∧
    (streamChat "gpt-4o" demoMsgs
        [TransportEvent.data "Hel", TransportEvent.data "lo", TransportEvent.data " world",
         TransportEvent.trailers "0" none, TransportEvent.streamEnd]).state.onCompleteCalls =
      ["Helloworld"] ∧
    (streamChat "gpt-4o" demoMsgs
        [TransportEvent.data "Hel", TransportEvent.data "lo", TransportEvent.data " world",
         TransportEvent.trailers "0" none, TransportEvent.streamEnd]).state.onChunkCalls =
      ["Hel", "lo", "world"] := by decide

/-- C2 counterexample: a pull-mode call (streamChatGenerator) whose
transport never sends a trailer is not resolved by the two-minute timer:
the generator registers no timeout handler, so the timer event leaves it
pending with the buffered text, instead of resolving successfully as the
claim states for both modes. -/
theorem generator_no_timeout_cex :
    streamChatGenerator "gpt-4o" demoMsgs
        [TransportEvent.data "Hel", TransportEvent.timerFire] =
      Except.ok (GenOutcome.pending ["Hel"]) := by decide

/-- C2 amended: the fixed two-minute timeout bounds push-mode calls only:
when the timer fires after any data-only prefix, streamChat closes the
connection and resolves successfully with the accumulated text, while
streamChatGenerator, which registers no timeout, remains pending with the
buffered fragments. -/
theorem timeout_push_only (pre : List String) :
    (streamChat "gpt-4o" demoMsgs
        (pre.map TransportEvent.data ++ [TransportEvent.timerFire])).state.settled =
      some (Except.ok (String.join (extractedTexts pre))) ∧
    (streamChat "gpt-4o" demoMsgs
        (pre.map TransportEvent.data ++ [TransportEvent.timerFire])).state.closeCalls = 1 ∧
    streamChatGenerator "gpt-4o" demoMsgs
        (pre.map TransportEvent.data ++ [TransportEvent.timerFire]) =
      Except.ok (GenOutcome.pending (extractedTexts pre)) := by
  have hm : modelNameToEnum "gpt-4o" = Except.ok 109 := rfl
  simp only [streamChat, streamChatGenerator, hm]
  rw [List.foldl_append, List.foldl_append, foldl_pushStep_data, foldl_genStep_data]
  refine ⟨?_, ?_, ?_⟩
  · simp [pushStep, settle, pushInit]
  · simp [pushStep, settle, pushInit]
  · simp [genStep]

/-- C4: whenever the transport delivers chunks and then a trailer with a
non-zero status and a message, the call fails: the promise settles on a
STREAM_ERROR whose text contains the status and the percent-decoded trailer
message, while every chunk delivered before the trailer was still observed
through the push onChunk callback. -/
theorem streamChat_nonzero_trailer_fails (pre : List String) (status m : String)
    (h : status ≠ "0") :
    (streamChat "gpt-4o" demoMsgs
        (pre.map TransportEvent.data ++
          [TransportEvent.trailers status (some m), TransportEvent.streamEnd])).state.settled =
      some (Except.error ⟨"gRPC error " ++ status ++ ": " ++ decodeURIComponentModel m,
        WindsurfErrorCode.STREAM_ERROR⟩) ∧
    (streamChat "gpt-4o" demoMsgs
        (pre.map TransportEvent.data ++
          [TransportEvent.trailers status (some m), TransportEvent.streamEnd])).state.onChunkCalls =
      extractedTexts pre ∧
    List.IsInfix status.data
      ("gRPC error " ++ status ++ ": " ++ decodeURIComponentModel m).data ∧
    List.IsInfix (decodeURIComponentModel m).data
      ("gRPC error " ++ status ++ ": " ++ decodeURIComponentModel m).data := by
  have hm : modelNameToEnum "gpt-4o" = Except.ok 109 := rfl
  simp only [streamChat, hm]
  rw [List.foldl_append, foldl_pushStep_data]
  refine ⟨?_, ?_, ?_, ?_⟩
  · simp [pushStep, settle, pushInit, h]
  · simp [pushStep, settle, pushInit, h]
  · exact ⟨"gRPC error ".data, (": " ++ decodeURIComponentModel m).data, by
      simp [String.data_append, List.append_assoc]⟩
  · exact ⟨("gRPC error " ++ status ++ ": ").data, [], by
      simp [String.data_append, List.append_assoc]⟩

/-- Witness for C4: one prior chunk "Hel", trailer status 13 with message
"boom". -/
theorem streamChat_nonzero_trailer_fails_witness :
    ("13" : String) ≠ "0" ∧
    ((streamChat "gpt-4o" demoMsgs
        (["Hel"].map TransportEvent.data ++
          [TransportEvent.trailers "13" (some "boom"), TransportEvent.streamEnd])).state.settled =
      some (Except.error ⟨"gRPC error " ++ "13" ++ ": " ++ decodeURIComponentModel "boom",
        WindsurfErrorCode.STREAM_ERROR⟩) ∧
    (streamChat "gpt-4o" demoMsgs
        (["Hel"].map TransportEvent.data ++
          [TransportEvent.trailers "13" (some "boom"), TransportEvent.streamEnd])).state.onChunkCalls =
      extractedTexts ["Hel"] ∧
    List.IsInfix ("13" : String).data
      ("gRPC error " ++ "13" ++ ": " ++ decodeURIComponentModel "boom").data ∧
    List.IsInfix (decodeURIComponentModel "boom").data
      ("gRPC error " ++ "13" ++ ": " ++ decodeURIComponentModel "boom").data) :=
  ⟨by decide, streamChat_nonzero_trailer_fails ["Hel"] "13" "boom" (by decide)⟩

/-- C9: once the pull-mode sequence is exhausted (every buffered fragment
yielded), it raises the terminal error when one occurred — non-zero trailer
status, request error, or connection failure — and otherwise ends cleanly:
over any data-only prefix, stream end alone finishes with no error, while
each terminal failure finishes with the corresponding stored error after
all fragments were yielded. -/
theorem generator_exhaustion_terminal (pre : List String) :
    streamChatGenerator "gpt-4o" demoMsgs
        (pre.map TransportEvent.data ++ [TransportEvent.streamEnd]) =
      Except.ok (GenOutcome.finished (extractedTexts pre) none) ∧
    (∀ status m, status ≠ "0" →
      streamChatGenerator "gpt-4o" demoMsgs
          (pre.map TransportEvent.data ++
            [TransportEvent.trailers status (some m), TransportEvent.streamEnd]) =
        Except.ok (GenOutcome.finished (extractedTexts pre)
          (some ⟨"gRPC error " ++ status ++ ": " ++ decodeURIComponentModel m,
            WindsurfErrorCode.STREAM_ERROR⟩))) ∧
    (∀ m, streamChatGenerator "gpt-4o" demoMsgs
        (pre.map TransportEvent.data ++ [TransportEvent.reqError m]) =
      Except.ok (GenOutcome.finished (extractedTexts pre)
        (some ⟨"Request failed: " ++ m, WindsurfErrorCode.STREAM_ERROR⟩))) ∧
    (∀ m, streamChatGenerator "gpt-4o" demoMsgs
        (pre.map TransportEvent.data ++ [TransportEvent.connError m]) =
      Except.ok (GenOutcome.finished (extractedTexts pre)
        (some ⟨"Connection failed: " ++ m, WindsurfErrorCode.CONNECTION_FAILED⟩))) := by
  have hm : modelNameToEnum "gpt-4o" = Except.ok 109 := rfl
  refine ⟨?_, fun status m h => ?_, fun m => ?_, fun m => ?_⟩ <;>
    · simp only [streamChatGenerator, hm]
      rw [List.foldl_append, foldl_genStep_data]
      simp [genStep, *]

/-- Witness for C9: one chunk "x", then trailer status 13 message "boom",
then stream end. -/
theorem generator_exhaustion_terminal_witness :
    ("13" : String) ≠ "0" ∧
    streamChatGenerator "gpt-4o" demoMsgs
        (["x"].map TransportEvent.data ++
          [TransportEvent.trailers "13" (some "boom"), TransportEvent.streamEnd]) =
      Except.ok (GenOutcome.finished (extractedTexts ["x"])
        (some ⟨"gRPC error " ++ "13" ++ ": " ++ decodeURIComponentModel "boom",
          WindsurfErrorCode.STREAM_ERROR⟩)) :=
  ⟨by decide, (generator_exhaustion_terminal ["x"]).2.1 "13" "boom" (by decide)⟩
